import Mathlib

/-!
Verification of the `ToolSubtask` core (griptape/tasks/tool_subtask.py): the
subtask parsing, validation, linking and execution protocol.  The Python class
is shallowly embedded: the subtask instance becomes an explicit state record,
Python values produced by `ast.literal_eval` become the `PyVal` inductive,
Python exceptions become the `PyErr` inductive threaded explicitly, and the
external collaborators (the literal parser, the tool registry of the owning
task, and the sandboxed executor) become an explicit environment record.
-/

namespace Griptape

/-- Python literal values as produced by `ast.literal_eval` on the matched
action literal: strings, integers, booleans, `None`, lists, dicts and sets.
A dict is a list of key/value pairs with distinct keys (Python dicts collapse
duplicate literal keys before the subtask ever sees them). -/
inductive PyVal where
  | str (s : String)
  | int (n : Int)
  | bool (b : Bool)
  | noneVal
  | list (xs : List PyVal)
  | dict (entries : List (PyVal × PyVal))
  | set (xs : List PyVal)
deriving Repr

/-- Python exceptions that can cross the statements modelled here; the
initializer dispatches on `SyntaxError` and `jsonschema.ValidationError`
and catches everything else as a bare `Exception`. -/
inductive PyErr where
  | syntaxError (msg : String)
  | validationError (msg : String)
  | keyError (msg : String)
  | typeError (msg : String)
  | attributeError (msg : String)
  | valueError (msg : String)
  | other (msg : String)
deriving Repr, DecidableEq

/-- Output artifacts: `TextOutput` wraps a string; `ErrorOutput` wraps a
message value (the Python call passes `self.action_input`, which may be `None`)
and records whether it was built from a caught exception.  The `task=` tag the
Python constructors also take is traceability metadata and is not modelled. -/
inductive Artifact where
  | text (value : String)
  | error (message : Option PyVal) (fromException : Bool)
deriving Repr

/-- Python truthiness (`if self.action_type:` etc.) for the values of `PyVal`. -/
def pyTruthy : PyVal → Bool
  | .str s => !(s = "")
  | .int n => !(n = 0)
  | .bool b => b
  | .noneVal => false
  | .list xs => !xs.isEmpty
  | .dict es => !es.isEmpty
  | .set xs => !xs.isEmpty

/-- Python `==` between a value and a string literal: only an equal string
compares equal (ints, bools, None, containers never equal a str). -/
def pyEqStr : PyVal → String → Bool
  | .str s, t => s = t
  | _, _ => false

mutual

/-- Python `repr` for `PyVal` (quote escaping inside strings is elided; no
value handled in this development contains a quote).  Used through `pyStr`
to model `str(action_object["input"])`. -/
def pyRepr : PyVal → String
  | .str s => "\x27" ++ s ++ "\x27"
  | .int n => toString n
  | .bool b => if b then ("True") else ("False")
  | .noneVal => "None"
  | .list xs => "[" ++ pyReprSep xs ++ "]"
  | .set xs => "\x7b" ++ pyReprSep xs ++ "\x7d"
  | .dict es => "\x7b" ++ pyReprPairs es ++ "\x7d"

/-- Comma-separated `repr` of the elements of a list or set literal. -/
def pyReprSep : List PyVal → String
  | [] => ""
  | [x] => pyRepr x
  | x :: y :: rest => pyRepr x ++ ", " ++ pyReprSep (y :: rest)

/-- Comma-separated `repr` of the key/value pairs of a dict literal. -/
def pyReprPairs : List (PyVal × PyVal) → String
  | [] => ""
  | [(k, v)] => pyRepr k ++ ": " ++ pyRepr v
  | (k, v) :: p :: rest => pyRepr k ++ ": " ++ pyRepr v ++ ", " ++ pyReprPairs (p :: rest)

end

/-- Python `str()`: the identity on strings, `repr`-like elsewhere. -/
def pyStr : PyVal → String
  | .str s => s
  | v => pyRepr v

/-- Lookup of a string key among the entries of a dict value. -/
def pyLookup : List (PyVal × PyVal) → String → Option PyVal
  | [], _ => none
  | (k, v) :: rest, key => if pyEqStr k key then some v else pyLookup rest key

/-- Python subscript `obj[key]` with a string key: a dict either yields the
value or raises `KeyError`; every other literal value raises `TypeError`
(strings/lists want integer indices, sets are not subscriptable at all). -/
def pySubscript (v : PyVal) (key : String) : Except PyErr PyVal :=
  match v with
  | .dict es =>
    match pyLookup es key with
    | some x => .ok x
    | none => .error (.keyError key)
  | .str _ => .error (.typeError ("string indices must be integers"))
  | .list _ => .error (.typeError ("list indices must be integers"))
  | .set _ => .error (.typeError ("set object is not subscriptable"))
  | _ => .error (.typeError ("object is not subscriptable"))

/-- Substring test on character lists, used for Python `in` between strings. -/
def charsInfix (needle : List Char) : List Char → Bool
  | [] => needle.isEmpty
  | c :: rest => needle.isPrefixOf (c :: rest) || charsInfix needle rest

/-- Python `key in obj` with a string key: key test on dicts, membership on
lists and sets, substring test on strings, `TypeError` elsewhere. -/
def pyContains (v : PyVal) (key : String) : Except PyErr Bool :=
  match v with
  | .dict es => .ok (pyLookup es key).isSome
  | .list xs => .ok (xs.any (fun x => pyEqStr x key))
  | .set xs => .ok (xs.any (fun x => pyEqStr x key))
  | .str s => .ok (charsInfix key.data s.data)
  | _ => .error (.typeError ("argument is not iterable"))

/-- Python `str(e)` on the exceptions modelled here (the representation detail
that `str(KeyError(k))` quotes the key is elided: the message text feeds only
human-readable diagnostics, never a branch). -/
def pyErrStr : PyErr → String
  | .syntaxError m => m
  | .validationError m => m
  | .keyError m => m
  | .typeError m => m
  | .attributeError m => m
  | .valueError m => m
  | .other m => m

/-! ## Prompt action extractor

The three class patterns, applied with `re.findall(..., re.MULTILINE)`:

* `THOUGHT_PATTERN = r"^Thought:\s*(.*)$"`
* `ACTION_PATTERN  = r"^Action:\s*(\x7b.*\x7d)$"`
* `OUTPUT_PATTERN  = r"^Output:\s?([\s\S]*)$"`

With `re.MULTILINE`, `^`/`$` anchor at line boundaries and `.` stops at a
newline, so the thought and action patterns match within single lines: each
produces at most one match per line, and `re.findall` returns the matching
lines in order.  The output pattern is different: `[\s\S]*` crosses newlines
and is greedy, so the single match starts at the first line beginning with
`Output:` and its capture runs to the end of the whole text (`\s?` consumes at
most one whitespace character); `re.findall` therefore returns at most one
output match.  The functions below realise exactly these semantics over the
character list of the text. -/

/-- Whitespace class `\s` of Python `re` (ASCII part; the inputs here are
ASCII). -/
def pyIsSpace (c : Char) : Bool :=
  c = ' ' || c = '\t' || c = '\n' || c = '\r' || c = '\x0b' || c = '\x0c'

/-- Split a character list at every newline (the line decomposition that
`re.MULTILINE` anchoring induces). -/
def splitLinesAux (cs : List Char) (acc : List Char) : List (List Char) :=
  match cs with
  | [] => [acc.reverse]
  | c :: rest =>
    if c = '\n' then acc.reverse :: splitLinesAux rest []
    else splitLinesAux rest (c :: acc)

/-- All lines of a text. -/
def splitLines (cs : List Char) : List (List Char) :=
  splitLinesAux cs []

/-- Character list of the fixed prefix `Thought:`. -/
def thoughtPrefixChars : List Char := ("Thought:").data

/-- Character list of the fixed prefix `Action:`. -/
def actionPrefixChars : List Char := ("Action:").data

/-- Character list of the fixed prefix `Output:`. -/
def outputPrefixChars : List Char := ("Output:").data

/-- Match of `^Thought:\s*(.*)$` against one line: after the literal prefix,
the greedy `\s*` consumes the maximal whitespace run and `(.*)` captures the
remainder of the line. -/
def matchThought (line : List Char) : Option String :=
  if thoughtPrefixChars.isPrefixOf line then
    some ⟨(line.drop 8).dropWhile pyIsSpace⟩
  else none

/-- Match of `^Action:\s*(\x7b.*\x7d)$` against one line: after the literal
prefix and the whitespace run, the capture must begin with an opening brace
and end with a closing brace at the end of the line (backtracking over `\s*`
cannot help because a brace is not whitespace, and the greedy `.*` places the
final brace at the last position of the line). -/
def matchAction (line : List Char) : Option String :=
  if actionPrefixChars.isPrefixOf line then
    let t := (line.drop 7).dropWhile pyIsSpace
    if t.head? = some '\x7b' && t.getLast? = some '\x7d' then some ⟨t⟩ else none
  else none

/-- Model of `re.findall(THOUGHT_PATTERN, value, re.MULTILINE)`. -/
def findallThought (value : String) : List String :=
  (splitLines value.data).filterMap matchThought

/-- Model of `re.findall(ACTION_PATTERN, value, re.MULTILINE)`. -/
def findallAction (value : String) : List String :=
  (splitLines value.data).filterMap matchAction

/-- Capture of the output pattern: `\s?` consumes at most one whitespace
character and `([\s\S]*)$` captures the whole remainder of the text. -/
def outputCapture (cs : List Char) : List Char :=
  match cs with
  | c :: rest => if pyIsSpace c then rest else c :: rest
  | [] => []

/-- Scan of the line suffixes for the first line starting with `Output:`,
joining the suffix of lines back together (which reproduces the suffix of the
original text starting at that line). -/
def findOutputInLines : List (List Char) → List String
  | [] => []
  | l :: rest =>
    if outputPrefixChars.isPrefixOf l then
      [⟨outputCapture ((List.intercalate ['\n'] (l :: rest)).drop 7)⟩]
    else findOutputInLines rest

/-- Model of `re.findall(OUTPUT_PATTERN, value, re.MULTILINE)`: at most one
match, anchored at the first `Output:` line, capturing to the end of text. -/
def findallOutput (value : String) : List String :=
  findOutputInLines (splitLines value.data)

/-! ## Data model -/

/-- A registered tool, at the interface the subtask consumes: the set of
method attribute names it exposes (`getattr` succeeds exactly on these), and
the jsonschema validation of an action input against the schema the tool
declares for a method (`validate(instance=self.action_input,
schema=self._tool.action_schema(method))` succeeds iff `inputSchemaOk` holds;
its `ValidationError` message is tool-generated text and is left abstract). -/
structure BaseTool where
  methods : List String
  inputSchemaOk : String → Option PyVal → Bool

/-- The `ToolSubtask` state.  Fields mirror the attrs fields of the class:
the annotations say `Optional[str]`, but nothing enforces them at runtime, so
the action fields hold whatever `PyVal` the parsed literal supplied.  `tool`
is the private `_tool` reference, `output` the produced artifact. -/
structure ToolSubtask where
  id : String
  parent_task_id : Option String := none
  thought : Option String := none
  action_type : Option PyVal := none
  action_name : Option PyVal := none
  action_method : Option PyVal := none
  action_input : Option PyVal := none
  tool : Option BaseTool := none
  output : Option Artifact := none
  parent_ids : List String := []
  child_ids : List String := []

/-- The external collaborators reached through `self` during parsing and
execution: `ast.literal_eval` (a stdlib parser, modelled as an oracle that
either returns the parsed literal value or the exception the parse raises),
`self.task.find_tool` (the owning ToolkitTask registry lookup), and
`self.structure.tool_loader.executor.execute` (the sandboxed executor, which
returns the decoded observation text or raises).  Logging sinks are pure side
effects and are not modelled. -/
structure TaskEnv where
  literalEval : String → Except PyErr PyVal
  findTool : PyVal → Option BaseTool
  execute : BaseTool → String → String → Except PyErr String

/-- Python truthiness of an optional attribute (`None` is falsy). -/
def pyTruthyOpt : Option PyVal → Bool
  | some v => pyTruthy v
  | none => false

/-- Python `==` between an optional attribute and a string literal. -/
def pyEqOptStr : Option PyVal → String → Bool
  | some v, t => pyEqStr v t
  | none, _ => false

/-! ## Initializer (`__init_from_prompt`, lines 144-204)

The body of the `try:` block mutates `self` field by field; when a statement
raises, the mutations already performed persist and the handler runs on the
mutated state.  Each step therefore returns the (possibly mutated) state
together with the exception it raised, if any, and `andThenErr` chains steps
with that short-circuiting. -/

/-- Sequencing of two initializer steps: the second runs only if the first
did not raise; a raised exception carries the partially mutated state. -/
def andThenErr (r : ToolSubtask × Option PyErr)
    (f : ToolSubtask → ToolSubtask × Option PyErr) : ToolSubtask × Option PyErr :=
  match r with
  | (s, some e) => (s, some e)
  | (s, none) => f s

/-- Line 162-163: `if self.action_type is None: self.action_type =
action_object["type"]` (the subscript raises `KeyError` when absent). -/
def stepType (actionObject : PyVal) (s : ToolSubtask) : ToolSubtask × Option PyErr :=
  if s.action_type.isNone then
    match pySubscript actionObject ("type") with
    | .ok v => ({ s with action_type := some v }, none)
    | .error e => (s, some e)
  else (s, none)

/-- Line 166-167: `if self.action_name is None: self.action_name =
action_object["name"]`. -/
def stepName (actionObject : PyVal) (s : ToolSubtask) : ToolSubtask × Option PyErr :=
  if s.action_name.isNone then
    match pySubscript actionObject ("name") with
    | .ok v => ({ s with action_name := some v }, none)
    | .error e => (s, some e)
  else (s, none)

/-- Line 170-171: `if self.action_method is None: self.action_method =
action_object["method"]`. -/
def stepMethod (actionObject : PyVal) (s : ToolSubtask) : ToolSubtask × Option PyErr :=
  if s.action_method.isNone then
    match pySubscript actionObject ("method") with
    | .ok v => ({ s with action_method := some v }, none)
    | .error e => (s, some e)
  else (s, none)

/-- Line 174-175: `if self.action_name: self._tool =
self.task.find_tool(self.action_name)` — an unguarded overwrite of `_tool`,
taken whenever `action_name` is truthy. -/
def stepResolveTool (env : TaskEnv) (s : ToolSubtask) : ToolSubtask :=
  match s.action_name with
  | some v => if pyTruthy v then { s with tool := env.findTool v } else s
  | none => s

/-- Line 178-179: `if self.action_input is None: self.action_input =
str(action_object["input"]) if "input" in action_object else None`.  The `in`
test itself can raise (`action_object` need not be a dict when earlier fields
were pre-set), and so can the subscript. -/
def stepInput (actionObject : PyVal) (s : ToolSubtask) : ToolSubtask × Option PyErr :=
  if s.action_input.isNone then
    match pyContains actionObject ("input") with
    | .error e => (s, some e)
    | .ok true =>
      match pySubscript actionObject ("input") with
      | .ok v => ({ s with action_input := some (.str (pyStr v)) }, none)
      | .error e => (s, some e)
    | .ok false => (s, none)
  else (s, none)

/-- Lines 182-186: `if self._tool: validate(instance=self.action_input,
schema=self._tool.action_schema(getattr(self._tool, self.action_method)))`.
The `getattr` raises `TypeError` for a non-string attribute name and
`AttributeError` for an unknown method; an input rejected by the tool schema
raises `jsonschema.ValidationError`. -/
def stepValidateInput (s : ToolSubtask) : ToolSubtask × Option PyErr :=
  match s.tool with
  | none => (s, none)
  | some t =>
    match s.action_method with
    | some (.str m) =>
      if t.methods.contains m then
        if t.inputSchemaOk m s.action_input then (s, none)
        else (s, some (.validationError ("instance failed the tool method input schema")))
      else (s, some (.attributeError ("tool object has no attribute " ++ m)))
    | some _ => (s, some (.typeError ("attribute name must be string")))
    | none => (s, some (.typeError ("attribute name must be string")))

/-- Line 26: `INVALID_ACTION_ERROR_MSG = f"invalid action input, try again"`. -/
def INVALID_ACTION_ERROR_MSG : String := "invalid action input, try again"

/-- Lines 152-186, the `try:` body run on the last action match: parse the
literal with `ast.literal_eval`, run `jsonschema.validate(instance=
action_object, schema=self.ACTION_SCHEMA.schema)`, then populate the fields.
The `validate` call is a no-op that never raises: `ACTION_SCHEMA.schema` is
the raw dict of the `schema`-library `Schema`, whose keys are `schema.Literal`
objects (and one `schema.Optional`); `jsonschema` looks its keywords up in the
schema mapping by string equality, `Literal` compares and hashes by identity,
so no keyword is found, the schema is treated as empty, and every instance
passes (`check_schema` passes for the same reason).  See `actionSchemaOk`
below for the schema as written. -/
def initTry (env : TaskEnv) (s : ToolSubtask) (lit : String) : ToolSubtask × Option PyErr :=
  match env.literalEval lit with
  | .error e => (s, some e)
  | .ok actionObject =>
    andThenErr (stepType actionObject s) fun s =>
    andThenErr (stepName actionObject s) fun s =>
    andThenErr (stepMethod actionObject s) fun s =>
    andThenErr (stepInput actionObject (stepResolveTool env s)) fun s =>
    stepValidateInput s

/-- Lines 188-202, the exception handlers: each one unconditionally overwrites
`action_name` with the literal string `"error"` and `action_input` with a
stage-specific diagnostic (`SyntaxError`, `jsonschema.ValidationError`, or the
generic `except Exception`). -/
def applyInitHandler (s : ToolSubtask) (e : PyErr) : ToolSubtask :=
  match e with
  | .syntaxError msg =>
    { s with action_name := some (.str ("error")),
             action_input := some (.str ("syntax error: " ++ msg)) }
  | .validationError msg =>
    { s with action_name := some (.str ("error")),
             action_input := some (.str ("JSON validation error: " ++ msg)) }
  | _ =>
    { s with action_name := some (.str ("error")),
             action_input := some (.str ("error: " ++ INVALID_ACTION_ERROR_MSG)) }

/-- Lines 149-150: `if self.thought is None and len(thought_matches) > 0:
self.thought = thought_matches[-1]`.  The `len(...) > 0` test combined with
the `[-1]` indexing is rendered as a match on `List.getLast?` (equal to
`none` exactly when the list is empty). -/
def stepThought (value : String) (s : ToolSubtask) : ToolSubtask :=
  match (findallThought value).getLast? with
  | some th => if s.thought.isNone then { s with thought := some th } else s
  | none => s

/-- Lines 152-202: the whole `try`/`except` processing of the last action
match — the `try:` body followed, on an exception, by the matching handler
applied to the partially mutated state. -/
def initAction (env : TaskEnv) (s : ToolSubtask) (lit : String) : ToolSubtask :=
  match initTry env s lit with
  | (s2, some e) => applyInitHandler s2 e
  | (s2, none) => s2

/-- Lines 203-204: `elif self.output is None and len(output_matches) > 0:
self.output = TextOutput(output_matches[-1])`. -/
def stepOutput (value : String) (s : ToolSubtask) : ToolSubtask :=
  match (findallOutput value).getLast? with
  | some out => if s.output.isNone then { s with output := some (.text out) } else s
  | none => s

/-- Lines 144-204, `__init_from_prompt(value)`: run the three findall calls,
store the last thought if none is set, and either process the last action
match through the `try`/`except`, or — only when no action matched (the
`elif`) — store the last output match as a `TextOutput` if no output is
set. -/
def initFromPrompt (env : TaskEnv) (s : ToolSubtask) (value : String) : ToolSubtask :=
  let s := stepThought value s
  match (findallAction value).getLast? with
  | some lit => initAction env s lit
  | none => stepOutput value s

/-- Lines 60-63, `attach(parent_task)`: set the owning task id and parse the
prompt input (the structure back-reference lives in the environment). -/
def attach (env : TaskEnv) (s : ToolSubtask) (parentTaskId : String)
    (inputValue : String) : ToolSubtask :=
  initFromPrompt env { s with parent_task_id := some parentTaskId } inputValue

/-! ## Execution (`run`, lines 80-99) -/

/-- Result of `run`: the mutated state, the value of the `return self.output`
in the `finally:` block, and the list of `(method, encoded input)` calls that
crossed the executor boundary (the observable dispatches). -/
structure RunOut where
  state : ToolSubtask
  returned : Option Artifact
  calls : List (String × String)

/-- Lines 81-93, the `try:` body of `run`, down to the artifact it assigns (or
the exception it raises) plus the executor calls it makes.  When
`action_name == "error"` it builds `ErrorOutput(self.action_input, ...)`.
Otherwise with a resolved tool it evaluates `getattr(self._tool,
self.action_method)` (TypeError for a non-string name, AttributeError for an
unknown method), then `self.action_input.encode()` (AttributeError when the
input is `None` or not a string), then the executor call itself, whose
`.decode()`d result is wrapped as `TextOutput`; with no resolved tool the
observation is the literal text `tool not found`. -/
def runTryBody (env : TaskEnv) (s : ToolSubtask) :
    Except PyErr Artifact × List (String × String) :=
  if pyEqOptStr s.action_name ("error") then
    (.ok (.error s.action_input false), [])
  else
    match s.tool with
    | some t =>
      match s.action_method with
      | some (.str m) =>
        if t.methods.contains m then
          match s.action_input with
          | some (.str inp) =>
            match env.execute t m inp with
            | .ok observation => (.ok (.text observation), [(m, inp)])
            | .error e => (.error e, [(m, inp)])
          | some _ => (.error (.attributeError ("object has no attribute encode")), [])
          | none => (.error (.attributeError ("NoneType object has no attribute encode")), [])
        else (.error (.attributeError ("tool object has no attribute " ++ m)), [])
      | some _ => (.error (.typeError ("attribute name must be string")), [])
      | none => (.error (.typeError ("attribute name must be string")), [])
    | none => (.ok (.text ("tool not found")), [])

/-- Lines 80-99, `run`: assign the artifact the `try:` body produced, or — for
any exception — log it and assign `ErrorOutput(str(e), exception=e, ...)`;
the `finally: return self.output` returns whatever `output` now holds. -/
def run (env : TaskEnv) (s : ToolSubtask) : RunOut :=
  match runTryBody env s with
  | (.ok a, calls) =>
    let s := { s with output := some a }
    { state := s, returned := s.output, calls := calls }
  | (.error e, calls) =>
    let s := { s with output := some (.error (some (.str (pyErrStr e))) true) }
    { state := s, returned := s.output, calls := calls }

/-! ## Graph linking (`add_child`/`add_parent`, lines 126-142) -/

/-- Lines 126-133, `add_child(self, child)` with two distinct instances:
append `child.id` to `self.child_ids` unless present, append `self.id` to
`child.parent_ids` unless present; returns the updated pair. -/
def add_child (self child : ToolSubtask) : ToolSubtask × ToolSubtask :=
  let self :=
    if child.id ∈ self.child_ids then self
    else { self with child_ids := self.child_ids ++ [child.id] }
  let child :=
    if self.id ∈ child.parent_ids then child
    else { child with parent_ids := child.parent_ids ++ [self.id] }
  (self, child)

/-- Lines 135-142, `add_parent(self, parent)` with two distinct instances. -/
def add_parent (self parent : ToolSubtask) : ToolSubtask × ToolSubtask :=
  let self :=
    if parent.id ∈ self.parent_ids then self
    else { self with parent_ids := self.parent_ids ++ [parent.id] }
  let parent :=
    if self.id ∈ parent.child_ids then parent
    else { parent with child_ids := parent.child_ids ++ [self.id] }
  (self, parent)

/-- Lines 126-133 again, but called as `add_child(p, p)`: `self` and `child`
alias the same instance, so the second guard reads the list the first append
already extended.  Nothing in the method prevents this call. -/
def add_child_self (self : ToolSubtask) : ToolSubtask :=
  let s1 :=
    if self.id ∈ self.child_ids then self
    else { self with child_ids := self.child_ids ++ [self.id] }
  if s1.id ∈ s1.parent_ids then s1
  else { s1 with parent_ids := s1.parent_ids ++ [s1.id] }

/-! ## Serialization (`to_json`, lines 109-124) -/

/-- Lines 110-122: the `json_dict` built by `to_json`, with each field
included only when truthy (so an empty-string field is omitted), in insertion
order type, name, method, input. -/
def toJsonDict (s : ToolSubtask) : List (String × PyVal) :=
  (match s.action_type with
   | some v => if pyTruthy v then [(("type"), v)] else []
   | none => []) ++
  (match s.action_name with
   | some v => if pyTruthy v then [(("name"), v)] else []
   | none => []) ++
  (match s.action_method with
   | some v => if pyTruthy v then [(("method"), v)] else []
   | none => []) ++
  (match s.action_input with
   | some v => if pyTruthy v then [(("input"), v)] else []
   | none => [])

mutual

/-- JSON rendering of a `PyVal` as `json.dumps` renders it (string escaping is
elided: no value serialized in this development contains a character needing
escapes; sets, which `json.dumps` rejects, render as a placeholder). -/
def jsonOfPyVal : PyVal → String
  | .str s => "\"" ++ s ++ "\""
  | .int n => toString n
  | .bool b => if b then ("true") else ("false")
  | .noneVal => "null"
  | .list xs => "[" ++ jsonOfPyValSep xs ++ "]"
  | .dict es => "\x7b" ++ jsonOfPyValPairs es ++ "\x7d"
  | .set _ => "<unserializable>"

/-- Comma-separated JSON rendering of list elements. -/
def jsonOfPyValSep : List PyVal → String
  | [] => ""
  | [x] => jsonOfPyVal x
  | x :: y :: rest => jsonOfPyVal x ++ ", " ++ jsonOfPyValSep (y :: rest)

/-- Comma-separated JSON rendering of dict pairs. -/
def jsonOfPyValPairs : List (PyVal × PyVal) → String
  | [] => ""
  | [(k, v)] => jsonOfPyVal k ++ ": " ++ jsonOfPyVal v
  | (k, v) :: p :: rest => jsonOfPyVal k ++ ": " ++ jsonOfPyVal v ++ ", " ++ jsonOfPyValPairs (p :: rest)

end

/-- Line 124: `json.dumps(json_dict)` over the assembled dict. -/
def to_json (s : ToolSubtask) : String :=
  "\x7b" ++
    String.intercalate (", ")
      ((toJsonDict s).map (fun kv => "\"" ++ kv.fst ++ "\": " ++ jsonOfPyVal kv.snd)) ++
  "\x7d"

/-! ## The action schema as written (lines 27-49)

`ACTION_SCHEMA` is a `schema.Schema` over a dict: required keys `type` (a
string in `("tool", "middleware")`), `name` (a string), `method` (a string),
and optional `input` (a string, a list, or a dict).  The `schema` library
rejects unknown keys.  This is the structural validation the class declares;
as proved under C2 it is never actually applied, because the raw `.schema`
dict is handed to `jsonschema.validate`. -/

/-- Check that a value is one of the allowed key names of `ACTION_SCHEMA`. -/
def isAllowedActionKey (k : PyVal) : Bool :=
  pyEqStr k ("type") || pyEqStr k ("name") || pyEqStr k ("method") || pyEqStr k ("input")

/-- Check of the optional `input` value: `schema.Or(str, list, {object: object})`. -/
def isValidInputVal : PyVal → Bool
  | .str _ => true
  | .list _ => true
  | .dict _ => true
  | _ => false

/-- The structural validation `ACTION_SCHEMA` describes, as the `schema`
library would apply it. -/
def actionSchemaOk : PyVal → Bool
  | .dict es =>
    (es.all (fun kv => isAllowedActionKey kv.fst)) &&
    (match pyLookup es ("type") with
     | some (.str t) => t = "tool" || t = "middleware"
     | _ => false) &&
    (match pyLookup es ("name") with
     | some (.str _) => true
     | _ => false) &&
    (match pyLookup es ("method") with
     | some (.str _) => true
     | _ => false) &&
    (match pyLookup es ("input") with
     | some v => isValidInputVal v
     | none => true)
  | _ => false

/-! ## Concrete fixtures

Environments whose `literalEval` components tabulate `ast.literal_eval` on
the specific literals fed to them (each table entry records what the Python
parser does on that exact string), and subtask instances for the concrete
scenarios. -/

/-- A freshly created subtask: every optional field unset, no links. -/
def subFresh : ToolSubtask := { id := "subtask-0" }

/-- A second fresh subtask with a distinct id. -/
def subFresh2 : ToolSubtask := { id := "subtask-1" }

/-- An environment with an empty tool registry whose literal parser rejects
everything (`ast.literal_eval` on a non-literal raises `ValueError`); enough
for inputs whose action literal is never parsed. -/
def envTrivial : TaskEnv :=
  { literalEval := fun _ => .error (.valueError ("malformed node or string"))
    findTool := fun _ => none
    execute := fun _ _ _ => .ok ("") }

/-- The literal `\x7b,\x7d`: `ast.literal_eval` raises `SyntaxError` on it
(a brace-wrapped token sequence that is not a valid expression). -/
def litSyn : String := "\x7b,\x7d"

/-- An environment whose parser raises `SyntaxError` on `litSyn` (what
`ast.literal_eval` does there) and `ValueError` elsewhere. -/
def envSyn : TaskEnv :=
  { literalEval := fun lit =>
      if lit = litSyn then .error (.syntaxError ("invalid syntax"))
      else .error (.valueError ("malformed node or string"))
    findTool := fun _ => none
    execute := fun _ _ _ => .ok ("") }

/-- The action literal with a disallowed `type` value used against C2. -/
def litBogus : String := "\x7b\"type\": \"bogus\", \"name\": \"calc\", \"method\": \"add\"\x7d"

/-- The parsed form of `litBogus`. -/
def dictBogus : PyVal :=
  .dict [(.str ("type"), .str ("bogus")), (.str ("name"), .str ("calc")),
         (.str ("method"), .str ("add"))]

/-- Environment tabulating `ast.literal_eval litBogus`; empty tool registry. -/
def envBogus : TaskEnv :=
  { literalEval := fun lit =>
      if lit = litBogus then .ok dictBogus
      else .error (.valueError ("malformed node or string"))
    findTool := fun _ => none
    execute := fun _ _ _ => .ok ("") }

/-- The prompt text whose only action line carries `litBogus`. -/
def textBogus : String := "Action: " ++ litBogus

/-- A registered `calc` tool exposing method `add` whose method input schema
rejects every input (scenario B: the tool schema requires what the action
does not supply). -/
def calcRejectTool : BaseTool :=
  { methods := [("add")], inputSchemaOk := fun _ _ => false }

/-- The well-formed scenario-B action literal naming the `calc` tool. -/
def litB : String :=
  "\x7b\"type\": \"tool\", \"name\": \"calc\", \"method\": \"add\", \"input\": \"two\"\x7d"

/-- The parsed form of `litB`. -/
def dictB : PyVal :=
  .dict [(.str ("type"), .str ("tool")), (.str ("name"), .str ("calc")),
         (.str ("method"), .str ("add")), (.str ("input"), .str ("two"))]

/-- Environment for scenario B: `litB` parses, `calc` resolves to
`calcRejectTool`, whose input schema then rejects the input. -/
def envReject : TaskEnv :=
  { literalEval := fun lit =>
      if lit = litB then .ok dictB
      else .error (.valueError ("malformed node or string"))
    findTool := fun v => if pyEqStr v ("calc") then some calcRejectTool else none
    execute := fun _ _ _ => .ok ("5") }

/-- The prompt text whose only action line carries `litB`. -/
def textB : String := "Action: " ++ litB

/-- The schema-valid action literal with an empty `name` and a list `input`
used against C7. -/
def litC7 : String :=
  "\x7b\"type\": \"tool\", \"name\": \"\", \"method\": \"m\", \"input\": []\x7d"

/-- The parsed form of `litC7`. -/
def dictC7 : PyVal :=
  .dict [(.str ("type"), .str ("tool")), (.str ("name"), .str ("")),
         (.str ("method"), .str ("m")), (.str ("input"), .list [])]

/-- Environment tabulating `ast.literal_eval litC7`; empty tool registry. -/
def envC7 : TaskEnv :=
  { literalEval := fun lit =>
      if lit = litC7 then .ok dictC7
      else .error (.valueError ("malformed node or string"))
    findTool := fun _ => none
    execute := fun _ _ _ => .ok ("") }

/-- The prompt text whose only action line carries `litC7`. -/
def textC7 : String := "Action: " ++ litC7

/-- A well-behaved action literal (non-empty string fields) for the C7
witness. -/
def litGood : String :=
  "\x7b\"type\": \"tool\", \"name\": \"calc\", \"method\": \"add\", \"input\": \"two\"\x7d"

/-- The parsed form of `litGood`. -/
def dictGood : PyVal :=
  .dict [(.str ("type"), .str ("tool")), (.str ("name"), .str ("calc")),
         (.str ("method"), .str ("add")), (.str ("input"), .str ("two"))]

/-- Environment tabulating `ast.literal_eval litGood`; empty tool registry
(the named tool is absent, so construction succeeds and execution would fall
through to `tool not found`). -/
def envGood : TaskEnv :=
  { literalEval := fun lit =>
      if lit = litGood then .ok dictGood
      else .error (.valueError ("malformed node or string"))
    findTool := fun _ => none
    execute := fun _ _ _ => .ok ("") }

/-- The prompt text whose only action line carries `litGood`. -/
def textGood : String := "Action: " ++ litGood

/-- A subtask already carrying `actionName == "error"` with a diagnostic, as
the error-recovery path leaves it. -/
def subErr : ToolSubtask :=
  { id := "subtask-err", action_name := some (.str ("error")),
    action_input := some (.str ("syntax error: invalid syntax")) }

/-- A tool whose schema accepts everything, used for the C10 witness. -/
def freeTool : BaseTool :=
  { methods := [("add")], inputSchemaOk := fun _ _ => true }

/-- A subtask that resolved `freeTool` but has no action input (its valid
action literal had no `input` key). -/
def subNoInput : ToolSubtask :=
  { id := "subtask-noinput", action_type := some (.str ("tool")),
    action_name := some (.str ("calc")), action_method := some (.str ("add")),
    tool := some freeTool }

/-- A subtask with every parse field already populated, used to exercise the
write-once guards. -/
def subSet : ToolSubtask :=
  { id := "subtask-set", thought := some ("already thinking"),
    action_type := some (.str ("tool")), action_name := some (.str ("calc")),
    action_method := some (.str ("add")), action_input := some (.str ("2,3")) }

/-- The graph-consistency invariant of the spec: link lists without
duplicates and without the id of the subtask itself. -/
def GraphOk (s : ToolSubtask) : Prop :=
  s.child_ids.Nodup ∧ s.parent_ids.Nodup ∧
  ¬(s.id ∈ s.child_ids) ∧ ¬(s.id ∈ s.parent_ids)

/-- Relation between a state and its successor inside the initializer: every
field except `tool` and the four action fields is untouched, and each action
field, when already set, keeps its value (guarded assignment). -/
structure PreservesCore (s s' : ToolSubtask) : Prop where
  id_eq : s'.id = s.id
  ptid_eq : s'.parent_task_id = s.parent_task_id
  thought_eq : s'.thought = s.thought
  output_eq : s'.output = s.output
  pids_eq : s'.parent_ids = s.parent_ids
  cids_eq : s'.child_ids = s.child_ids
  type_pres : s.action_type.isSome = true → s'.action_type = s.action_type
  name_pres : s.action_name.isSome = true → s'.action_name = s.action_name
  method_pres : s.action_method.isSome = true → s'.action_method = s.action_method
  input_pres : s.action_input.isSome = true → s'.action_input = s.action_input

/-! ## Preservation lemmas for the initializer steps -/

theorem preservesCore_refl (s : ToolSubtask) : PreservesCore s s :=
  ⟨rfl, rfl, rfl, rfl, rfl, rfl, fun _ => rfl, fun _ => rfl, fun _ => rfl, fun _ => rfl⟩

theorem preservesCore_trans {s t u : ToolSubtask}
    (h1 : PreservesCore s t) (h2 : PreservesCore t u) : PreservesCore s u where
  id_eq := h2.id_eq.trans h1.id_eq
  ptid_eq := h2.ptid_eq.trans h1.ptid_eq
  thought_eq := h2.thought_eq.trans h1.thought_eq
  output_eq := h2.output_eq.trans h1.output_eq
  pids_eq := h2.pids_eq.trans h1.pids_eq
  cids_eq := h2.cids_eq.trans h1.cids_eq
  type_pres := fun h =>
    (h2.type_pres (by rw [h1.type_pres h]; exact h)).trans (h1.type_pres h)
  name_pres := fun h =>
    (h2.name_pres (by rw [h1.name_pres h]; exact h)).trans (h1.name_pres h)
  method_pres := fun h =>
    (h2.method_pres (by rw [h1.method_pres h]; exact h)).trans (h1.method_pres h)
  input_pres := fun h =>
    (h2.input_pres (by rw [h1.input_pres h]; exact h)).trans (h1.input_pres h)

theorem stepType_pres (d : PyVal) (s : ToolSubtask) : PreservesCore s (stepType d s).1 := by
  unfold stepType
  by_cases h : s.action_type.isNone = true
  · rw [if_pos h]
    rcases pySubscript d ("type") with e | v
    · exact preservesCore_refl s
    · exact ⟨rfl, rfl, rfl, rfl, rfl, rfl,
        fun hh => by rw [Option.isNone_iff_eq_none.mp h] at hh; simp at hh,
        fun _ => rfl, fun _ => rfl, fun _ => rfl⟩
  · rw [if_neg h]
    exact preservesCore_refl s

theorem stepName_pres (d : PyVal) (s : ToolSubtask) : PreservesCore s (stepName d s).1 := by
  unfold stepName
  by_cases h : s.action_name.isNone = true
  · rw [if_pos h]
    rcases pySubscript d ("name") with e | v
    · exact preservesCore_refl s
    · exact ⟨rfl, rfl, rfl, rfl, rfl, rfl, fun _ => rfl,
        fun hh => by rw [Option.isNone_iff_eq_none.mp h] at hh; simp at hh,
        fun _ => rfl, fun _ => rfl⟩
  · rw [if_neg h]
    exact preservesCore_refl s

theorem stepMethod_pres (d : PyVal) (s : ToolSubtask) : PreservesCore s (stepMethod d s).1 := by
  unfold stepMethod
  by_cases h : s.action_method.isNone = true
  · rw [if_pos h]
    rcases pySubscript d ("method") with e | v
    · exact preservesCore_refl s
    · exact ⟨rfl, rfl, rfl, rfl, rfl, rfl, fun _ => rfl, fun _ => rfl,
        fun hh => by rw [Option.isNone_iff_eq_none.mp h] at hh; simp at hh,
        fun _ => rfl⟩
  · rw [if_neg h]
    exact preservesCore_refl s

theorem stepResolveTool_pres (env : TaskEnv) (s : ToolSubtask) :
    PreservesCore s (stepResolveTool env s) := by
  unfold stepResolveTool
  rcases hname : s.action_name with _ | v
  · exact preservesCore_refl s
  · dsimp only
    by_cases h : pyTruthy v = true
    · rw [if_pos h]
      exact ⟨rfl, rfl, rfl, rfl, rfl, rfl, fun _ => rfl, fun _ => by rw [hname],
        fun _ => rfl, fun _ => rfl⟩
    · rw [if_neg h]
      exact preservesCore_refl s

theorem stepInput_pres (d : PyVal) (s : ToolSubtask) : PreservesCore s (stepInput d s).1 := by
  unfold stepInput
  by_cases h : s.action_input.isNone = true
  · rw [if_pos h]
    rcases pyContains d ("input") with e | b
    · exact preservesCore_refl s
    · rcases b with _ | _
      · exact preservesCore_refl s
      · rcases pySubscript d ("input") with e | v
        · exact preservesCore_refl s
        · exact ⟨rfl, rfl, rfl, rfl, rfl, rfl, fun _ => rfl, fun _ => rfl, fun _ => rfl,
            fun hh => by rw [Option.isNone_iff_eq_none.mp h] at hh; simp at hh⟩
  · rw [if_neg h]
    exact preservesCore_refl s

theorem stepValidateInput_fst (s : ToolSubtask) : (stepValidateInput s).1 = s := by
  unfold stepValidateInput
  rcases s.tool with _ | t
  · rfl
  · rcases s.action_method with _ | v
    · rfl
    · rcases v with sm | _ | _ | _ | _ | _ | _ <;> try rfl
      dsimp only
      by_cases h1 : t.methods.contains sm = true
      · rw [if_pos h1]
        by_cases h2 : t.inputSchemaOk sm s.action_input = true
        · rw [if_pos h2]
        · rw [if_neg h2]
      · rw [if_neg h1]

theorem andThenErr_pres {s : ToolSubtask} {r : ToolSubtask × Option PyErr}
    {f : ToolSubtask → ToolSubtask × Option PyErr}
    (hr : PreservesCore s r.1) (hf : ∀ u, PreservesCore u (f u).1) :
    PreservesCore s (andThenErr r f).1 := by
  rcases r with ⟨u, e⟩
  rcases e with _ | e
  · exact preservesCore_trans hr (hf u)
  · exact hr

theorem initTry_pres (env : TaskEnv) (s : ToolSubtask) (lit : String) :
    PreservesCore s (initTry env s lit).1 := by
  unfold initTry
  rcases env.literalEval lit with e | d
  · exact preservesCore_refl s
  · refine andThenErr_pres (stepType_pres d s) fun u1 => ?_
    refine andThenErr_pres (stepName_pres d u1) fun u2 => ?_
    refine andThenErr_pres (stepMethod_pres d u2) fun u3 => ?_
    refine andThenErr_pres
      (preservesCore_trans (stepResolveTool_pres env u3)
        (stepInput_pres d (stepResolveTool env u3))) fun u4 => ?_
    rw [stepValidateInput_fst]
    exact preservesCore_refl u4

theorem applyInitHandler_output (s : ToolSubtask) (e : PyErr) :
    (applyInitHandler s e).output = s.output := by
  cases e <;> rfl

theorem applyInitHandler_thought (s : ToolSubtask) (e : PyErr) :
    (applyInitHandler s e).thought = s.thought := by
  cases e <;> rfl

theorem applyInitHandler_action_type (s : ToolSubtask) (e : PyErr) :
    (applyInitHandler s e).action_type = s.action_type := by
  cases e <;> rfl

theorem applyInitHandler_action_method (s : ToolSubtask) (e : PyErr) :
    (applyInitHandler s e).action_method = s.action_method := by
  cases e <;> rfl

theorem applyInitHandler_action_name (s : ToolSubtask) (e : PyErr) :
    (applyInitHandler s e).action_name = some (.str ("error")) := by
  cases e <;> rfl

theorem initAction_output (env : TaskEnv) (s : ToolSubtask) (lit : String) :
    (initAction env s lit).output = s.output := by
  unfold initAction
  rcases h : initTry env s lit with ⟨s2, e⟩
  have hpres := initTry_pres env s lit
  rw [h] at hpres
  rcases e with _ | e
  · exact hpres.output_eq
  · rw [applyInitHandler_output]
    exact hpres.output_eq

theorem initAction_thought (env : TaskEnv) (s : ToolSubtask) (lit : String) :
    (initAction env s lit).thought = s.thought := by
  unfold initAction
  rcases h : initTry env s lit with ⟨s2, e⟩
  have hpres := initTry_pres env s lit
  rw [h] at hpres
  rcases e with _ | e
  · exact hpres.thought_eq
  · rw [applyInitHandler_thought]
    exact hpres.thought_eq

theorem initAction_action_type (env : TaskEnv) (s : ToolSubtask) (lit : String)
    (hs : s.action_type.isSome = true) :
    (initAction env s lit).action_type = s.action_type := by
  unfold initAction
  rcases h : initTry env s lit with ⟨s2, e⟩
  have hpres := initTry_pres env s lit
  rw [h] at hpres
  rcases e with _ | e
  · exact hpres.type_pres hs
  · rw [applyInitHandler_action_type]
    exact hpres.type_pres hs

theorem initAction_action_method (env : TaskEnv) (s : ToolSubtask) (lit : String)
    (hs : s.action_method.isSome = true) :
    (initAction env s lit).action_method = s.action_method := by
  unfold initAction
  rcases h : initTry env s lit with ⟨s2, e⟩
  have hpres := initTry_pres env s lit
  rw [h] at hpres
  rcases e with _ | e
  · exact hpres.method_pres hs
  · rw [applyInitHandler_action_method]
    exact hpres.method_pres hs

theorem initAction_action_name (env : TaskEnv) (s : ToolSubtask) (lit : String)
    (hs : s.action_name.isSome = true) :
    (initAction env s lit).action_name = s.action_name ∨
      (initAction env s lit).action_name = some (.str ("error")) := by
  unfold initAction
  rcases h : initTry env s lit with ⟨s2, e⟩
  have hpres := initTry_pres env s lit
  rw [h] at hpres
  rcases e with _ | e
  · exact Or.inl (hpres.name_pres hs)
  · exact Or.inr (applyInitHandler_action_name s2 e)

theorem initAction_action_input (env : TaskEnv) (s : ToolSubtask) (lit : String)
    (hs : s.action_input.isSome = true) :
    (initAction env s lit).action_input = s.action_input ∨
      (initAction env s lit).action_name = some (.str ("error")) := by
  unfold initAction
  rcases h : initTry env s lit with ⟨s2, e⟩
  have hpres := initTry_pres env s lit
  rw [h] at hpres
  rcases e with _ | e
  · exact Or.inl (hpres.input_pres hs)
  · exact Or.inr (applyInitHandler_action_name s2 e)

theorem stepThought_output (value : String) (s : ToolSubtask) :
    (stepThought value s).output = s.output := by
  unfold stepThought
  rcases (findallThought value).getLast? with _ | th
  · rfl
  · dsimp only
    by_cases h : s.thought.isNone = true
    · rw [if_pos h]
    · rw [if_neg h]

theorem stepThought_action_fields (value : String) (s : ToolSubtask) :
    (stepThought value s).action_type = s.action_type ∧
    (stepThought value s).action_name = s.action_name ∧
    (stepThought value s).action_method = s.action_method ∧
    (stepThought value s).action_input = s.action_input := by
  unfold stepThought
  rcases (findallThought value).getLast? with _ | th
  · exact ⟨rfl, rfl, rfl, rfl⟩
  · dsimp only
    by_cases h : s.thought.isNone = true
    · rw [if_pos h]
      exact ⟨rfl, rfl, rfl, rfl⟩
    · rw [if_neg h]
      exact ⟨rfl, rfl, rfl, rfl⟩

theorem stepThought_thought_of_isSome (value : String) (s : ToolSubtask)
    (hs : s.thought.isSome = true) : (stepThought value s).thought = s.thought := by
  unfold stepThought
  rcases (findallThought value).getLast? with _ | th
  · rfl
  · dsimp only
    rw [if_neg]
    intro hn
    rw [Option.isNone_iff_eq_none.mp hn] at hs
    simp at hs

theorem run_output_spec (env : TaskEnv) (s : ToolSubtask) :
    ∃ a, (run env s).state.output = some a ∧ (run env s).returned = some a := by
  unfold run
  rcases h : runTryBody env s with ⟨ea, calls⟩
  rcases ea with e | a
  · exact ⟨_, rfl, rfl⟩
  · exact ⟨_, rfl, rfl⟩

theorem stepOutput_action_fields (value : String) (s : ToolSubtask) :
    (stepOutput value s).thought = s.thought ∧
    (stepOutput value s).action_type = s.action_type ∧
    (stepOutput value s).action_name = s.action_name ∧
    (stepOutput value s).action_method = s.action_method ∧
    (stepOutput value s).action_input = s.action_input := by
  unfold stepOutput
  rcases (findallOutput value).getLast? with _ | out
  · exact ⟨rfl, rfl, rfl, rfl, rfl⟩
  · dsimp only
    by_cases h : s.output.isNone = true
    · rw [if_pos h]
      exact ⟨rfl, rfl, rfl, rfl, rfl⟩
    · rw [if_neg h]
      exact ⟨rfl, rfl, rfl, rfl, rfl⟩

theorem stepOutput_of_no_match (value : String) (s : ToolSubtask)
    (h : findallOutput value = []) : stepOutput value s = s := by
  unfold stepOutput
  rw [h]
  rfl

theorem initFromPrompt_action (env : TaskEnv) (s : ToolSubtask) (value lit : String)
    (h : (findallAction value).getLast? = some lit) :
    initFromPrompt env s value = initAction env (stepThought value s) lit := by
  simp only [initFromPrompt, h]

theorem initFromPrompt_no_action (env : TaskEnv) (s : ToolSubtask) (value : String)
    (h : (findallAction value).getLast? = none) :
    initFromPrompt env s value = stepOutput value (stepThought value s) := by
  simp only [initFromPrompt, h]

theorem run_parse_fields (env : TaskEnv) (s : ToolSubtask) :
    (run env s).state.thought = s.thought ∧
    (run env s).state.action_type = s.action_type ∧
    (run env s).state.action_name = s.action_name ∧
    (run env s).state.action_method = s.action_method ∧
    (run env s).state.action_input = s.action_input := by
  unfold run
  rcases h : runTryBody env s with ⟨ea, calls⟩
  rcases ea with e | a
  · exact ⟨rfl, rfl, rfl, rfl, rfl⟩
  · exact ⟨rfl, rfl, rfl, rfl, rfl⟩

theorem add_child_eq (p c : ToolSubtask) :
    add_child p c =
      ((if c.id ∈ p.child_ids then p else { p with child_ids := p.child_ids ++ [c.id] }),
       (if p.id ∈ c.parent_ids then c else { c with parent_ids := c.parent_ids ++ [p.id] })) := by
  unfold add_child
  dsimp only
  by_cases h : c.id ∈ p.child_ids
  · rw [if_pos h]
  · rw [if_neg h]

theorem add_parent_eq (c p : ToolSubtask) :
    add_parent c p =
      ((if p.id ∈ c.parent_ids then c else { c with parent_ids := c.parent_ids ++ [p.id] }),
       (if c.id ∈ p.child_ids then p else { p with child_ids := p.child_ids ++ [c.id] })) := by
  unfold add_parent
  dsimp only
  by_cases h : p.id ∈ c.parent_ids
  · rw [if_pos h]
  · rw [if_neg h]

/-! ## Claim theorems -/

/-- Claim C1: for every subtask state and every environment, `run` returns an
artifact and never propagates an exception: every path through `run` —
including every failure path of the `try:` body — ends with a well-formed
artifact assigned to `output` and that same artifact returned by the
`finally: return self.output`. -/
theorem c1_run_always_returns_artifact (env : TaskEnv) (s : ToolSubtask) :
    ∃ a, (run env s).returned = some a ∧ (run env s).state.output = some a := by
  obtain ⟨a, h1, h2⟩ := run_output_spec env s
  exact ⟨a, h2, h1⟩

/-- Claim C3, counterexample: on the input text `Action: not-json` the
initializer leaves `action_name` (and `action_input`) unset — the action
pattern requires a brace-delimited literal, so `Action: not-json` never
reaches the parsing stage and no error action is recorded, contradicting the
claimed `actionName == "error"` outcome. -/
theorem c3_counterexample :
    (initFromPrompt envTrivial subFresh ("Action: not-json")).action_name = none ∧
    (initFromPrompt envTrivial subFresh ("Action: not-json")).action_input = none ∧
    ¬((initFromPrompt envTrivial subFresh ("Action: not-json")).action_name
        = some (PyVal.str ("error"))) := by
  refine ⟨rfl, rfl, fun h => ?_⟩
  exact Option.noConfusion
    (show (none : Option PyVal) = some (PyVal.str ("error")) from h)

/-- Claim C3, amended: `Action: not-json` does not match the action pattern
at all (the pattern demands a braced literal on the line), so the initializer
leaves `actionName` unset; a braced but syntactically invalid action literal
— here `Action: \x7b,\x7d` — does end with `actionName == "error"` and
`actionInput` holding a syntax diagnostic. -/
theorem c3_amended :
    (initFromPrompt envSyn subFresh ("Action: not-json")).action_name = none ∧
    (initFromPrompt envSyn subFresh ("Action: " ++ litSyn)).action_name
      = some (.str ("error")) ∧
    (initFromPrompt envSyn subFresh ("Action: " ++ litSyn)).action_input
      = some (.str ("syntax error: invalid syntax")) :=
  ⟨rfl, rfl, rfl⟩

/-- Claim C2: the structural stage never actually rejects anything, because
`jsonschema.validate` receives the raw `schema`-library dict (whose
`Literal` keys match no JSON-Schema keyword) and accepts every instance.  The
action literal with the disallowed type value `bogus` — which the declared
`ACTION_SCHEMA` rejects, as `actionSchemaOk` shows — is accepted: the fields
are populated from it and the subtask does not end in the error action,
contradicting the claimed rejection of disallowed `type` values and wrong
key types. -/
theorem c2_structural_validation_bypassed :
    actionSchemaOk dictBogus = false ∧
    (initFromPrompt envBogus subFresh textBogus).action_type = some (.str ("bogus")) ∧
    (initFromPrompt envBogus subFresh textBogus).action_name = some (.str ("calc")) ∧
    (initFromPrompt envBogus subFresh textBogus).action_input = none ∧
    ¬((initFromPrompt envBogus subFresh textBogus).action_name
        = some (PyVal.str ("error"))) := by
  refine ⟨rfl, rfl, rfl, rfl, fun h => ?_⟩
  have h2 : PyVal.str ("calc") = PyVal.str ("error") :=
    Option.some.inj
      (show (some (PyVal.str ("calc")) : Option PyVal) = some (PyVal.str ("error")) from h)
  injection h2 with h3
  exact absurd h3 (by decide)

/-- Claim C6, counterexample: the state reached by the initializer on
scenario B (a resolved tool whose method input schema rejects the input) has
`actionName == "error"` while the resolved tool reference is still set,
contradicting the claimed invariant that the tool reference is unset whenever
`actionName == "error"`. -/
theorem c6_counterexample :
    (initFromPrompt envReject subFresh textB).action_name = some (.str ("error")) ∧
    (initFromPrompt envReject subFresh textB).tool = some calcRejectTool :=
  ⟨rfl, rfl⟩

/-- Claim C6, amended: whenever `actionName == "error"` at the start of
`run`, no tool invocation crosses the executor boundary and `run` produces
only an error artifact carrying `actionInput` as its message — but the
resolved tool reference is not necessarily unset (see the counterexample). -/
theorem c6_amended (env : TaskEnv) (s : ToolSubtask)
    (h : s.action_name = some (.str ("error"))) :
    (run env s).calls = [] ∧
    (run env s).returned = some (.error s.action_input false) := by
  unfold run runTryBody
  have hcond : pyEqOptStr s.action_name ("error") = true := by
    rw [h]
    rfl
  rw [if_pos hcond]
  exact ⟨rfl, rfl⟩

/-- Claim C6, witness: the amended theorem applied to a concrete error-action
subtask. -/
theorem c6_witness :
    (run envTrivial subErr).calls = [] ∧
    (run envTrivial subErr).returned = some (.error subErr.action_input false) :=
  c6_amended envTrivial subErr rfl

/-- Claim C10: a subtask that resolved a tool but whose `actionInput` is
unset can never produce a successful observation from `run`: evaluation of
`self.action_input.encode()` (or of the `getattr` before it) raises before
any dispatch, so `run` returns an error artifact and no call crosses the
executor boundary. -/
theorem c10_missing_input_errors (env : TaskEnv) (s : ToolSubtask) (t : BaseTool)
    (htool : s.tool = some t) (hinput : s.action_input = none) :
    (∃ m b, (run env s).returned = some (Artifact.error m b)) ∧
    (run env s).calls = [] := by
  unfold run runTryBody
  by_cases hname : pyEqOptStr s.action_name ("error") = true
  · rw [if_pos hname]
    exact ⟨⟨s.action_input, false, rfl⟩, rfl⟩
  · rw [if_neg hname, htool]
    rcases hm : s.action_method with _ | v
    · exact ⟨⟨_, _, rfl⟩, rfl⟩
    · rcases v with ms | n | b | _ | xs | es | xs
      · dsimp only
        by_cases hc : t.methods.contains ms = true
        · rw [if_pos hc, hinput]
          exact ⟨⟨_, _, rfl⟩, rfl⟩
        · rw [if_neg hc]
          exact ⟨⟨_, _, rfl⟩, rfl⟩
      all_goals exact ⟨⟨_, _, rfl⟩, rfl⟩

/-- Claim C10, witness: the theorem applied to the concrete subtask that
resolved `freeTool` with no action input. -/
theorem c10_witness :
    (∃ m b, (run envTrivial subNoInput).returned = some (Artifact.error m b)) ∧
    (run envTrivial subNoInput).calls = [] :=
  c10_missing_input_errors envTrivial subNoInput freeTool rfl rfl

/-- Claim C4, counterexample: on the output-only path the initializer
assigns `output` (here the text `final answer is 42`) and a subsequent `run`
assigns it again (the text `tool not found`), a different artifact — so
through the lifecycle initializer-then-run the output field is not assigned
exactly once and is overwritten after being set. -/
theorem c4_counterexample :
    (initFromPrompt envTrivial subFresh ("Output: final answer is 42")).output
      = some (.text ("final answer is 42")) ∧
    (run envTrivial (initFromPrompt envTrivial subFresh ("Output: final answer is 42"))).state.output
      = some (.text ("tool not found")) ∧
    ¬(Artifact.text ("final answer is 42") = Artifact.text ("tool not found")) := by
  refine ⟨rfl, rfl, fun h => ?_⟩
  injection h with h2
  exact absurd h2 (by decide)

/-- Claim C4, amended: on every lifecycle that does not take the output-only
path (the text has an action match, or has no output match), `output` is
still unset after the initializer and is then assigned exactly once by `run`,
which returns the assigned artifact; on the output-only path the initializer
assigns `output` and a subsequent `run` overwrites it. -/
theorem c4_amended (env : TaskEnv) (s : ToolSubtask) (value : String)
    (h0 : s.output = none)
    (hpath : ¬(findallAction value = []) ∨ findallOutput value = []) :
    (initFromPrompt env s value).output = none ∧
    ∃ a, (run env (initFromPrompt env s value)).state.output = some a ∧
      (run env (initFromPrompt env s value)).returned = some a := by
  have hinit : (initFromPrompt env s value).output = none := by
    rcases ha : (findallAction value).getLast? with _ | lit
    · rcases hpath with hA | hO
      · exact absurd (List.getLast?_eq_none_iff.mp ha) hA
      · rw [initFromPrompt_no_action env s value ha, stepOutput_of_no_match value _ hO,
          stepThought_output, h0]
    · rw [initFromPrompt_action env s value lit ha, initAction_output,
        stepThought_output, h0]
  exact ⟨hinit, run_output_spec env (initFromPrompt env s value)⟩

/-- Claim C4, witness: the amended theorem applied to a fresh subtask and a
text with neither an action nor an output match. -/
theorem c4_witness :
    (initFromPrompt envTrivial subFresh ("Thought: hi")).output = none ∧
    ∃ a, (run envTrivial (initFromPrompt envTrivial subFresh ("Thought: hi"))).state.output = some a ∧
      (run envTrivial (initFromPrompt envTrivial subFresh ("Thought: hi"))).returned = some a :=
  c4_amended envTrivial subFresh ("Thought: hi") rfl (Or.inr rfl)

/-- Claim C5, counterexample: inside a single initializer pass on scenario B,
`actionName` is first assigned the parsed tool name `calc` (the state the
`try:` body returns together with the input-schema `ValidationError`), and
the exception handler then assigns it a second time with `error` — the final
state keeps the second value, not the first, contradicting the claimed
write-once behaviour of `actionName`. -/
theorem c5_counterexample :
    ((initTry envReject subFresh litB).1).action_name = some (.str ("calc")) ∧
    (initTry envReject subFresh litB).2
      = some (.validationError ("instance failed the tool method input schema")) ∧
    (initFromPrompt envReject subFresh textB).action_name = some (.str ("error")) ∧
    ¬((PyVal.str ("calc") : PyVal) = PyVal.str ("error")) := by
  refine ⟨rfl, rfl, rfl, fun h => ?_⟩
  injection h with h2
  exact absurd h2 (by decide)

/-- Claim C5, amended: `thought`, `actionType` and `actionMethod` are
write-once through the initializer (and `run` touches none of the five parse
fields); `actionName` and `actionInput` are write-once on the success path,
but the failure-recovery handlers overwrite them unconditionally, so a
previously set `actionName` can end up replaced by `error`. -/
theorem c5_amended (env : TaskEnv) (s : ToolSubtask) (value : String) :
    (s.thought.isSome = true → (initFromPrompt env s value).thought = s.thought) ∧
    (s.action_type.isSome = true →
      (initFromPrompt env s value).action_type = s.action_type) ∧
    (s.action_method.isSome = true →
      (initFromPrompt env s value).action_method = s.action_method) ∧
    (s.action_name.isSome = true →
      (initFromPrompt env s value).action_name = s.action_name ∨
      (initFromPrompt env s value).action_name = some (.str ("error"))) ∧
    (s.action_input.isSome = true →
      (initFromPrompt env s value).action_input = s.action_input ∨
      (initFromPrompt env s value).action_name = some (.str ("error"))) ∧
    ((run env s).state.thought = s.thought ∧
     (run env s).state.action_type = s.action_type ∧
     (run env s).state.action_name = s.action_name ∧
     (run env s).state.action_method = s.action_method ∧
     (run env s).state.action_input = s.action_input) := by
  have hth := stepThought_action_fields value s
  rcases ha : (findallAction value).getLast? with _ | lit
  · rw [initFromPrompt_no_action env s value ha]
    have hso := stepOutput_action_fields value (stepThought value s)
    refine ⟨?_, ?_, ?_, ?_, ?_, run_parse_fields env s⟩
    · intro hs
      rw [hso.1, stepThought_thought_of_isSome value s hs]
    · intro hs
      rw [hso.2.1, hth.1]
    · intro hs
      rw [hso.2.2.2.1, hth.2.2.1]
    · intro hs
      exact Or.inl (by rw [hso.2.2.1, hth.2.1])
    · intro hs
      exact Or.inl (by rw [hso.2.2.2.2, hth.2.2.2])
  · rw [initFromPrompt_action env s value lit ha]
    refine ⟨?_, ?_, ?_, ?_, ?_, run_parse_fields env s⟩
    · intro hs
      rw [initAction_thought, stepThought_thought_of_isSome value s hs]
    · intro hs
      rw [initAction_action_type env _ lit (by rw [hth.1]; exact hs), hth.1]
    · intro hs
      rw [initAction_action_method env _ lit (by rw [hth.2.2.1]; exact hs), hth.2.2.1]
    · intro hs
      rcases initAction_action_name env (stepThought value s) lit
          (by rw [hth.2.1]; exact hs) with hpr | herr
      · exact Or.inl (by rw [hpr, hth.2.1])
      · exact Or.inr herr
    · intro hs
      rcases initAction_action_input env (stepThought value s) lit
          (by rw [hth.2.2.2]; exact hs) with hpr | herr
      · exact Or.inl (by rw [hpr, hth.2.2.2])
      · exact Or.inr herr

/-- Claim C5, witness: the amended theorem applied to a concrete subtask with
a pre-set thought. -/
theorem c5_witness :
    (initFromPrompt envTrivial subSet ("Thought: new idea")).thought = subSet.thought :=
  (c5_amended envTrivial subSet ("Thought: new idea")).1 rfl

/-- Claim C8: the extractor consumes only the last match of each pattern —
two texts whose per-pattern last matches coincide are processed identically
by the initializer — and the output pattern is consulted only when no action
match exists: any action match leaves `output` untouched. -/
theorem c8_extractor_last_match (env : TaskEnv) (s : ToolSubtask) (t1 t2 : String)
    (hth : (findallThought t1).getLast? = (findallThought t2).getLast?)
    (hac : (findallAction t1).getLast? = (findallAction t2).getLast?)
    (hou : (findallOutput t1).getLast? = (findallOutput t2).getLast?) :
    initFromPrompt env s t1 = initFromPrompt env s t2 ∧
    (¬(findallAction t1 = []) → (initFromPrompt env s t1).output = s.output) := by
  constructor
  · simp only [initFromPrompt, stepThought, stepOutput]
    rw [hth, hac, hou]
  · intro hA
    obtain ⟨lit, hlit⟩ : ∃ lit, (findallAction t1).getLast? = some lit := by
      rcases hl : (findallAction t1).getLast? with _ | l
      · exact absurd (List.getLast?_eq_none_iff.mp hl) hA
      · exact ⟨l, rfl⟩
    rw [initFromPrompt_action env s t1 lit hlit, initAction_output, stepThought_output]

/-- Claim C8, witness: the theorem applied to two texts sharing the same last
thought match. -/
theorem c8_witness :
    initFromPrompt envTrivial subFresh ("Thought: a\nThought: b")
      = initFromPrompt envTrivial subFresh ("Thought: b") ∧
    (¬(findallAction ("Thought: a\nThought: b") = []) →
      (initFromPrompt envTrivial subFresh ("Thought: a\nThought: b")).output
        = subFresh.output) :=
  c8_extractor_last_match envTrivial subFresh ("Thought: a\nThought: b") ("Thought: b")
    rfl rfl rfl

theorem graphok_append_child {p : ToolSubtask} {x : String} (hp : GraphOk p)
    (hx : ¬(p.id = x)) (hmem : ¬(x ∈ p.child_ids)) :
    GraphOk { p with child_ids := p.child_ids ++ [x] } := by
  obtain ⟨h1, h2, h3, h4⟩ := hp
  refine ⟨?_, h2, ?_, h4⟩
  · rw [List.nodup_append]
    refine ⟨h1, List.nodup_singleton x, ?_⟩
    intro a ha hax
    rw [List.mem_singleton] at hax
    subst hax
    exact hmem ha
  · rw [List.mem_append]
    rintro (h | h)
    · exact h3 h
    · rw [List.mem_singleton] at h
      exact hx h

theorem graphok_append_parent {p : ToolSubtask} {x : String} (hp : GraphOk p)
    (hx : ¬(p.id = x)) (hmem : ¬(x ∈ p.parent_ids)) :
    GraphOk { p with parent_ids := p.parent_ids ++ [x] } := by
  obtain ⟨h1, h2, h3, h4⟩ := hp
  refine ⟨h1, ?_, h3, ?_⟩
  · rw [List.nodup_append]
    refine ⟨h2, List.nodup_singleton x, ?_⟩
    intro a ha hax
    rw [List.mem_singleton] at hax
    subst hax
    exact hmem ha
  · rw [List.mem_append]
    rintro (h | h)
    · exact h4 h
    · rw [List.mem_singleton] at h
      exact hx h

/-- Claim C9, counterexample: calling `add_child(p, p)` — nothing forbids
passing the same subtask for both parameters — appends the own id of the
subtask to its child list, producing a self-loop, so the claimed invariant
does not hold for every sequence of calls on any subtasks. -/
theorem c9_counterexample :
    (add_child_self subFresh).child_ids = [("subtask-0")] ∧
    (add_child_self subFresh).id ∈ (add_child_self subFresh).child_ids :=
  ⟨rfl, by decide⟩

/-- Claim C9, amended: provided each call links two distinct subtasks (their
ids differ), `addChild`/`addParent` preserve the graph invariant — no
duplicates, no self-loops — on both sides, a second `addChild(p, c)` is a
no-op, and after `addChild(p, c)` the pair appears exactly once in
`p.childIds` and `c.parentIds`. -/
theorem c9_amended (p c : ToolSubtask) (hid : ¬(p.id = c.id))
    (hp : GraphOk p) (hc : GraphOk c) :
    (GraphOk (add_child p c).1 ∧ GraphOk (add_child p c).2) ∧
    (GraphOk (add_parent c p).1 ∧ GraphOk (add_parent c p).2) ∧
    add_child (add_child p c).1 (add_child p c).2 = add_child p c ∧
    (add_child p c).1.child_ids.count c.id = 1 ∧
    (add_child p c).2.parent_ids.count p.id = 1 := by
  have hid2 : ¬(c.id = p.id) := fun h => hid h.symm
  refine ⟨⟨?_, ?_⟩, ⟨?_, ?_⟩, ?_, ?_, ?_⟩
  · rw [add_child_eq]
    by_cases hm : c.id ∈ p.child_ids
    · rw [if_pos hm]
      exact hp
    · rw [if_neg hm]
      exact graphok_append_child hp hid hm
  · rw [add_child_eq]
    by_cases hm : p.id ∈ c.parent_ids
    · rw [if_pos hm]
      exact hc
    · rw [if_neg hm]
      exact graphok_append_parent hc hid2 hm
  · rw [add_parent_eq]
    by_cases hm : p.id ∈ c.parent_ids
    · rw [if_pos hm]
      exact hc
    · rw [if_neg hm]
      exact graphok_append_parent hc hid2 hm
  · rw [add_parent_eq]
    by_cases hm : c.id ∈ p.child_ids
    · rw [if_pos hm]
      exact hp
    · rw [if_neg hm]
      exact graphok_append_child hp hid hm
  · rw [add_child_eq p c]
    by_cases hm1 : c.id ∈ p.child_ids <;> by_cases hm2 : p.id ∈ c.parent_ids
    · rw [if_pos hm1, if_pos hm2, add_child_eq, if_pos hm1, if_pos hm2]
    · rw [if_pos hm1, if_neg hm2, add_child_eq, if_pos hm1, if_pos (by simp)]
    · rw [if_neg hm1, if_pos hm2, add_child_eq, if_pos (by simp), if_pos hm2]
    · rw [if_neg hm1, if_neg hm2, add_child_eq, if_pos (by simp), if_pos (by simp)]
  · rw [add_child_eq]
    by_cases hm : c.id ∈ p.child_ids
    · rw [if_pos hm]
      exact List.count_eq_one_of_mem hp.1 hm
    · rw [if_neg hm]
      simp [List.count_append, List.count_eq_zero_of_not_mem hm]
  · rw [add_child_eq]
    by_cases hm : p.id ∈ c.parent_ids
    · rw [if_pos hm]
      exact List.count_eq_one_of_mem hc.2.1 hm
    · rw [if_neg hm]
      simp [List.count_append, List.count_eq_zero_of_not_mem hm]

/-- Claim C9, witness: the amended theorem applied to two fresh distinct
subtasks. -/
theorem initAction_fresh_shape (env : TaskEnv) (s : ToolSubtask) (lit : String)
    (d : PyVal) (t n m : String) (i : Option String)
    (hT : s.action_type = none) (hN : s.action_name = none)
    (hM : s.action_method = none) (hI : s.action_input = none)
    (hE : env.literalEval lit = .ok d)
    (ht : pySubscript d ("type") = .ok (.str t))
    (hn : pySubscript d ("name") = .ok (.str n)) (hn0 : ¬(n = ""))
    (hm : pySubscript d ("method") = .ok (.str m))
    (hf : env.findTool (.str n) = none)
    (hi : match i with
          | some iv => pyContains d ("input") = .ok true ∧
              pySubscript d ("input") = .ok (.str iv)
          | none => pyContains d ("input") = .ok false) :
    initAction env s lit =
      { s with action_type := some (.str t), action_name := some (.str n), action_method := some (.str m), action_input := i.map PyVal.str, tool := none } := by
  have htruthy : pyTruthy (.str n) = true := by
    simp [pyTruthy, hn0]
  have e1 : stepType d s = ({ s with action_type := some (.str t) }, (none : Option PyErr)) := by
    simp [stepType, hT, ht]
  have e2 : stepName d { s with action_type := some (.str t) }
      = ({ s with action_type := some (.str t), action_name := some (.str n) },
         (none : Option PyErr)) := by
    simp [stepName, hN, hn]
  have e3 : stepMethod d { s with action_type := some (.str t), action_name := some (.str n) }
      = ({ s with action_type := some (.str t), action_name := some (.str n), action_method := some (.str m) },
         (none : Option PyErr)) := by
    simp [stepMethod, hM, hm]
  have e4 : stepResolveTool env { s with action_type := some (.str t), action_name := some (.str n), action_method := some (.str m) }
      = { s with action_type := some (.str t), action_name := some (.str n), action_method := some (.str m), tool := none } := by
    simp [stepResolveTool, htruthy, hf]
  have e5 : stepInput d { s with action_type := some (.str t), action_name := some (.str n), action_method := some (.str m), tool := none }
      = ({ s with action_type := some (.str t), action_name := some (.str n), action_method := some (.str m), action_input := i.map PyVal.str, tool := none },
         (none : Option PyErr)) := by
    rcases i with _ | iv
    · simp [stepInput, hI, hi]
    · simp [stepInput, hI, hi.1, hi.2, pyStr]
  have e6 : stepValidateInput { s with action_type := some (.str t), action_name := some (.str n), action_method := some (.str m), action_input := i.map PyVal.str, tool := none }
      = ({ s with action_type := some (.str t), action_name := some (.str n), action_method := some (.str m), action_input := i.map PyVal.str, tool := none },
         (none : Option PyErr)) := by
    simp [stepValidateInput]
  unfold initAction initTry
  rw [hE]
  dsimp only
  rw [e1]
  unfold andThenErr
  dsimp only
  rw [e2]
  dsimp only
  rw [e3]
  dsimp only
  rw [e4, e5]
  dsimp only
  rw [e6]

/-- Claim C7, counterexample: the literal carrying an empty `name` and a list
`input` is schema-valid (per `actionSchemaOk`, the schema as declared), yet
the serialized form omits the falsy `name` field entirely and renders the
`input` field as the stringification `[]` instead of the original list — the
round trip does not reproduce the original fields. -/
theorem c7_counterexample :
    actionSchemaOk dictC7 = true ∧
    pySubscript dictC7 ("name") = .ok (.str ("")) ∧
    pySubscript dictC7 ("input") = .ok (.list []) ∧
    toJsonDict (initFromPrompt envC7 subFresh textC7)
      = [(("type"), .str ("tool")), (("method"), .str ("m")), (("input"), .str ("[]"))] ∧
    to_json (initFromPrompt envC7 subFresh textC7)
      = "\x7b\"type\": \"tool\", \"method\": \"m\", \"input\": \"[]\"\x7d" :=
  ⟨rfl, rfl, rfl, rfl, rfl⟩

/-- Claim C7, amended: for a subtask constructed (with all parse fields
previously unset) from a syntactically valid action literal whose `type`,
`name` and `method` are non-empty strings, whose `input`, when present, is a
non-empty string, and whose name resolves to no tool, the serialized JSON
dict reproduces exactly the `type`/`name`/`method`/`input` fields of the
literal; an empty-string field would be omitted and a non-string input would
be reproduced only in stringified form (see the counterexample). -/
theorem c7_roundtrip_amended (env : TaskEnv) (s : ToolSubtask) (value lit : String)
    (d : PyVal) (t n m : String) (i : Option String)
    (hT : s.action_type = none) (hN : s.action_name = none)
    (hM : s.action_method = none) (hI : s.action_input = none)
    (hA : (findallAction value).getLast? = some lit)
    (hE : env.literalEval lit = .ok d)
    (ht : pySubscript d ("type") = .ok (.str t)) (ht0 : ¬(t = ""))
    (hn : pySubscript d ("name") = .ok (.str n)) (hn0 : ¬(n = ""))
    (hm : pySubscript d ("method") = .ok (.str m)) (hm0 : ¬(m = ""))
    (hf : env.findTool (.str n) = none)
    (hi : match i with
          | some iv => ¬(iv = "") ∧ pyContains d ("input") = .ok true ∧
              pySubscript d ("input") = .ok (.str iv)
          | none => pyContains d ("input") = .ok false) :
    toJsonDict (initFromPrompt env s value) =
      [(("type"), .str t), (("name"), .str n), (("method"), .str m)] ++
      i.elim [] (fun iv => [(("input"), PyVal.str iv)]) := by
  have hth := stepThought_action_fields value s
  rw [initFromPrompt_action env s value lit hA]
  rw [initAction_fresh_shape env (stepThought value s) lit d t n m i
    (by rw [hth.1]; exact hT) (by rw [hth.2.1]; exact hN)
    (by rw [hth.2.2.1]; exact hM) (by rw [hth.2.2.2]; exact hI)
    hE ht hn hn0 hm hf
    (by rcases i with _ | iv
        · exact hi
        · exact ⟨hi.2.1, hi.2.2⟩)]
  rcases i with _ | iv
  · simp [toJsonDict, pyTruthy, ht0, hn0, hm0]
  · have hiv0 : ¬(iv = "") := hi.1
    simp [toJsonDict, pyTruthy, ht0, hn0, hm0, hiv0]

/-- Claim C7, witness: the amended theorem applied to the concrete
well-behaved literal `litGood`. -/
theorem c7_witness :
    toJsonDict (initFromPrompt envGood subFresh textGood) =
      [(("type"), .str ("tool")), (("name"), .str ("calc")), (("method"), .str ("add"))] ++
      (some ("two")).elim [] (fun iv => [(("input"), PyVal.str iv)]) :=
  c7_roundtrip_amended envGood subFresh textGood litGood dictGood
    ("tool") ("calc") ("add") (some ("two"))
    rfl rfl rfl rfl rfl rfl rfl (by decide) rfl (by decide) rfl (by decide) rfl
    ⟨by decide, rfl, rfl⟩

theorem c9_witness : GraphOk (add_child subFresh subFresh2).1 :=
  (c9_amended subFresh subFresh2 (by decide)
    ⟨List.nodup_nil, List.nodup_nil, List.not_mem_nil _, List.not_mem_nil _⟩
    ⟨List.nodup_nil, List.nodup_nil, List.not_mem_nil _, List.not_mem_nil _⟩).1.1

end Griptape
